import Mathlib

/-!
Verification of the RefereAssign fixture-pull scripts.

The repository's scripts fetch fixture pages, extract table rows, filter them
to a Saturday-based date window, and emit fixture records for a scheduling
web application.  This file embeds the date arithmetic, string processing,
row classification and the per-script pipelines as executable Lean
definitions, and proves the specification's claims about them.

Dates are modelled as Python ordinals (`datetime.date.toordinal`: day 1 is
0001-01-01 in the proleptic Gregorian calendar).  Python strings are
modelled as `List Char`.
-/

/-! ## Calendar arithmetic -/

/-- Gregorian leap-year test, as used by `datetime.date`. -/
def isLeap (y : Nat) : Bool :=
  (y % 4 == 0 && y % 100 != 0) || y % 400 == 0

/-- Number of days in month `m` of year `y` (months are 1-based). -/
def daysInMonth (y m : Nat) : Nat :=
  if m = 2 then (if isLeap y then 29 else 28)
  else if m = 4 ∨ m = 6 ∨ m = 9 ∨ m = 11 then 30
  else 31

/-- Validity of a `(year, month, day)` triple for `datetime.date`:
year in `[1, 9999]`, month in `[1, 12]`, day in `[1, daysInMonth]`. -/
def dateValid (y m d : Nat) : Bool :=
  1 ≤ y && y ≤ 9999 && 1 ≤ m && m ≤ 12 && 1 ≤ d && d ≤ daysInMonth y m

/-- Python ordinal of the Gregorian date `(y, m, d)` (0001-01-01 is day 1),
computed by the standard civil-calendar conversion. -/
def toOrdinal (y m d : Nat) : Int :=
  let ys : Nat := if m ≤ 2 then y - 1 else y
  let era : Nat := ys / 400
  let yoe : Nat := ys - era * 400
  let mp : Nat := if 2 < m then m - 3 else m + 9
  let doy : Nat := (153 * mp + 2) / 5 + d - 1
  let doe : Nat := yoe * 365 + yoe / 4 - yoe / 100 + doy
  (era : Int) * 146097 + (doe : Int) - 719468 + 719163

/-- Gregorian date `(y, m, d)` of a Python ordinal (inverse civil-calendar
conversion). -/
def fromOrdinal (n : Int) : Nat × Nat × Nat :=
  let z : Int := n - 719163 + 719468
  let era : Int := z / 146097
  let doe : Nat := (z - era * 146097).toNat
  let yoe : Nat := (doe - doe / 1460 + doe / 36524 - doe / 146096) / 365
  let y : Int := (yoe : Int) + era * 400
  let doy : Nat := doe - (365 * yoe + yoe / 4 - yoe / 100)
  let mp : Nat := (5 * doy + 2) / 153
  let d : Nat := doy - (153 * mp + 2) / 5 + 1
  let m : Nat := if mp < 10 then mp + 3 else mp - 9
  (if m ≤ 2 then (y + 1).toNat else y.toNat, m, d)

/-- Python `date.weekday()` on an ordinal: Monday is 0, ..., Sunday is 6. -/
def weekday (n : Int) : Int :=
  (n + 6) % 7

/-- ASCII decimal digit character for `n < 10`. -/
def digitChar (n : Nat) : Char :=
  Char.ofNat (48 + n)

/-- Zero-padded two-digit decimal rendering. -/
def pad2 (n : Nat) : List Char :=
  [digitChar (n / 10 % 10), digitChar (n % 10)]

/-- Zero-padded four-digit decimal rendering. -/
def pad4 (n : Nat) : List Char :=
  [digitChar (n / 1000 % 10), digitChar (n / 100 % 10),
   digitChar (n / 10 % 10), digitChar (n % 10)]

/-- ISO `YYYY-MM-DD` rendering of an ordinal, as produced both by
`str(date)` and by `date.strftime('%Y-%m-%d')`. -/
def formatIso (n : Int) : List Char :=
  let ymd := fromOrdinal n
  pad4 ymd.1 ++ '-' :: pad2 ymd.2.1 ++ '-' :: pad2 ymd.2.2

/-! ## The two date-window calculators -/

/-- `fixture_generator.calculate_target_week`, over an arbitrary "today"
ordinal: most recent Saturday (or today), plus five days. -/
def calculate_target_week (today : Int) : Int × Int :=
  (today - (weekday today - 5 + 7) % 7,
   today - (weekday today - 5 + 7) % 7 + 5)

/-- `fixture_scraper.get_target_date_range`, over an arbitrary "today"
ordinal: upcoming Saturday (or today), plus six days. -/
def get_target_date_range (today : Int) : Int × Int :=
  (today + (5 - weekday today + 7) % 7,
   today + (5 - weekday today + 7) % 7 + 6)

/-! ## Python string primitives (strings as `List Char`) -/

/-- Python `str.strip()`: drop leading and trailing whitespace. -/
def pyStrip (s : List Char) : List Char :=
  ((s.dropWhile Char.isWhitespace).reverse.dropWhile Char.isWhitespace).reverse

/-- Python `str.lower()`, over ASCII text. -/
def pyLower (s : List Char) : List Char :=
  s.map Char.toLower

/-- Python `str.replace(a, b)` for single-character arguments. -/
def pyReplace (a b : Char) (s : List Char) : List Char :=
  s.map fun c => if c = a then b else c

/-- `leadMatch pat s` is true when `pat` occurs at the start of `s`. -/
def leadMatch : List Char → List Char → Bool
  | [], _ => true
  | _ :: _, [] => false
  | p :: ps, c :: cs => p == c && leadMatch ps cs

/-- Python substring containment `pat in s`. -/
def hasSub (pat : List Char) : List Char → Bool
  | [] => leadMatch pat []
  | c :: cs => leadMatch pat (c :: cs) || hasSub pat cs

/-- Steps of Python `str.title()`: the flag records whether the previous
character was alphabetic (cased). -/
def pyTitleAux : Bool → List Char → List Char
  | _, [] => []
  | cased, c :: cs =>
      (if c.isAlpha then (if cased then c.toLower else c.toUpper) else c)
        :: pyTitleAux c.isAlpha cs

/-- Python `str.title()`, over ASCII text. -/
def pyTitle (s : List Char) : List Char :=
  pyTitleAux false s

/-- Helper for `pySplit`: accumulates the current field in reverse. -/
def pySplitAux (sep : Char) : List Char → List Char → List (List Char)
  | [], acc => [acc.reverse]
  | c :: cs, acc =>
      if c = sep then acc.reverse :: pySplitAux sep cs []
      else pySplitAux sep cs (c :: acc)

/-- Python `str.split(sep)` for a one-character separator: keeps empty
fields and always returns at least one field. -/
def pySplit (sep : Char) (s : List Char) : List (List Char) :=
  pySplitAux sep s []

/-- Python `lst[-2]`: second-to-last element, `none` when the list has
fewer than two elements (an `IndexError` in Python). -/
def secondToLast (l : List (List Char)) : Option (List Char) :=
  match l.reverse with
  | _ :: x :: _ => some x
  | _ => none

/-! ## `strptime` date parsing -/

/-- Numeric value of an ASCII digit character. -/
def digitVal (c : Char) : Nat :=
  c.toNat - 48

/-- Read one or two leading decimal digits (maximal munch), as the
`strptime` field patterns `%d` and `%m` do before a non-digit separator. -/
def read2or1 : List Char → Option (Nat × List Char)
  | a :: b :: rest =>
      if a.isDigit then
        if b.isDigit then some (10 * digitVal a + digitVal b, rest)
        else some (digitVal a, b :: rest)
      else none
  | [a] => if a.isDigit then some (digitVal a, []) else none
  | [] => none

/-- Read exactly four leading decimal digits, as `strptime`'s `%Y` does. -/
def read4 : List Char → Option (Nat × List Char)
  | a :: b :: c :: d :: rest =>
      if a.isDigit && b.isDigit && c.isDigit && d.isDigit then
        some (1000 * digitVal a + 100 * digitVal b + 10 * digitVal c + digitVal d,
              rest)
      else none
  | _ => none

/-- Consume an expected literal character. -/
def expectChar (c : Char) : List Char → Option (List Char)
  | x :: rest => if x = c then some rest else none
  | [] => none

/-- `datetime.strptime(s, '%d/%m/%Y')` followed by `.date().toordinal()`:
day and month are one or two digits, the year exactly four digits, the
whole string must be consumed, and the triple must be a valid calendar
date.  `none` models the `ValueError` raised on any failure. -/
def parseDMY (s : List Char) : Option Int :=
  match read2or1 s with
  | none => none
  | some (d, s1) =>
    match expectChar '/' s1 with
    | none => none
    | some s2 =>
      match read2or1 s2 with
      | none => none
      | some (m, s3) =>
        match expectChar '/' s3 with
        | none => none
        | some s4 =>
          match read4 s4 with
          | none => none
          | some (y, s5) =>
            if s5.isEmpty && dateValid y m d then some (toOrdinal y m d) else none

/-- `datetime.strptime(s, '%Y-%m-%d')` followed by `.date().toordinal()`:
the fallback format, with the same failure model as `parseDMY`. -/
def parseYMD (s : List Char) : Option Int :=
  match read4 s with
  | none => none
  | some (y, s1) =>
    match expectChar '-' s1 with
    | none => none
    | some s2 =>
      match read2or1 s2 with
      | none => none
      | some (m, s3) =>
        match expectChar '-' s3 with
        | none => none
        | some s4 =>
          match read2or1 s4 with
          | none => none
          | some (d, s5) =>
            if s5.isEmpty && dateValid y m d then some (toOrdinal y m d) else none

/-- `fixture_scraper.is_date_in_range`: parse the date text first as
`DD/MM/YYYY`, then as `YYYY-MM-DD`, and compare the result with the
window; any parse failure yields `False`. -/
def is_date_in_range (s : List Char) (start_date end_date : Int) : Bool :=
  match parseDMY s with
  | some n => decide (start_date ≤ n ∧ n ≤ end_date)
  | none =>
      match parseYMD s with
      | some n => decide (start_date ≤ n ∧ n ≤ end_date)
      | none => false

/-! ## Fixtures and table rows -/

/-- The Fixture value record emitted for the scheduling application. -/
structure Fixture where
  date : List Char
  time : List Char
  home : List Char
  away : List Char
  pitch : List Char
  league : List Char
deriving DecidableEq

/-- A table row, as the ordered list of its cell texts. -/
abbrev Row := List (List Char)

/-- A fixture table, as its list of rows. -/
abbrev Table := List Row

/-! ## The 11-a-side scraper of `fixture_scraper.py` -/

/-- League name derived from a URL:
`url.split('/')[-2].replace('-', ' ').title()`.  `none` models the
`IndexError` raised when the URL has fewer than two slash-separated
parts. -/
def leagueNameOfUrl (url : List Char) : Option (List Char) :=
  (secondToLast (pySplit '/' url)).map fun s => pyTitle (pyReplace '-' ' ' s)

/-- `row.select_one('td:nth-child(k)')` over a row of cell texts
(1-based); `none` models a missing cell. -/
def cellAt (row : Row) (k : Nat) : Option (List Char) :=
  row.get? (k - 1)

/-- The time/home/away/pitch cells (columns 2 to 5) of a row; `none` when
any is missing, in which case `.text` on `None` raises in the source. -/
def rowCells (row : Row) :
    Option (List Char × List Char × List Char × List Char) :=
  match cellAt row 2, cellAt row 3, cellAt row 4, cellAt row 5 with
  | some tc, some hc, some ac, some pc => some (tc, hc, ac, pc)
  | _, _, _, _ => none

/-- The row loop of `scrape_11s_league`: skip rows with a missing or empty
first (date) cell, keep rows whose date passes `is_date_in_range`.  `none`
models an exception escaping the loop (a kept row missing one of columns
2 to 5), which the surrounding `except` turns into an empty result. -/
def scrapeRows (league : List Char) (a b : Int) :
    List Row → Option (List Fixture)
  | [] => some []
  | row :: rest =>
    match cellAt row 1 with
    | none => scrapeRows league a b rest
    | some dc =>
      if pyStrip dc = [] then scrapeRows league a b rest
      else if is_date_in_range (pyStrip dc) a b then
        match rowCells row with
        | some (tc, hc, ac, pc) =>
          (scrapeRows league a b rest).map fun fs =>
            { date := pyStrip dc, time := pyStrip tc, home := pyStrip hc,
              away := pyStrip ac, pitch := pyStrip pc, league := league } :: fs
        | none => none
      else scrapeRows league a b rest

/-- `fixture_scraper.scrape_11s_league` applied to the rows of one page's
fixture table; any exception inside the `try` yields `[]`. -/
def scrape_11s_league (url : List Char) (rows : List Row) (a b : Int) :
    List Fixture :=
  match leagueNameOfUrl url with
  | none => []
  | some league => (scrapeRows league a b rows).getD []

/-! ## Night availability for small-sided leagues -/

/-- The weekday table of `create_night_availability`:
`{'tuesday': 1, 'wednesday': 2, 'thursday': 3, 'monday': 0}`. -/
def dayMap (s : List Char) : Option Int :=
  if s = "tuesday".data then some 1
  else if s = "wednesday".data then some 2
  else if s = "thursday".data then some 3
  else if s = "monday".data then some 0
  else none

/-- The last space-separated word of a league name, stripped
(`league_name.split(' ')[-1].strip()`). -/
def lastWord (s : List Char) : List Char :=
  pyStrip ((pySplit ' ' s).getLast?.getD [])

/-- The `while current_date <= end_date` search of
`create_night_availability`: the first date in the window falling on
weekday `w` becomes a single availability placeholder, and the loop
breaks. -/
def nightLoop (league : List Char) (w cur ed : Int) : List Fixture :=
  if h : cur ≤ ed then
    if weekday cur = w then
      [{ date := formatIso cur, time := "Night".data, home := league,
         away := "OPEN NIGHT AVAILABILITY".data, pitch := "Multiple".data,
         league := "Night Referees".data }]
    else nightLoop league w (cur + 1) ed
  else []
termination_by (ed + 1 - cur).toNat
decreasing_by
  simp_wf
  omega

/-- `fixture_scraper.create_night_availability`: derive the league name
and its play-day from the URL, and emit one availability placeholder for
that weekday inside the window; an unrecognized day name gives no
fixtures.  `none` models the uncaught `IndexError` on a URL with fewer
than two slash-separated parts. -/
def create_night_availability (url : List Char) (sd ed : Int) :
    Option (List Fixture) :=
  match leagueNameOfUrl url with
  | none => none
  | some league =>
    match dayMap (pyLower (lastWord league)) with
    | none => some []
    | some w => some (nightLoop league w sd ed)

/-! ## The mocked generator of `fixture_generator.py` -/

/-- The combined description `f"{home} vs {away} ({league})"`. -/
def mkDescription (home away league : List Char) : List Char :=
  home ++ " vs ".data ++ away ++ " (".data ++ league ++ ")".data

/-- The small-sided test of `get_fixtures`:
`"5's" in description or "7's" in description`. -/
def isSmallSided (desc : List Char) : Bool :=
  hasSub "5's".data desc || hasSub "7's".data desc

/-- The simulated date check of `get_fixtures`: the dummy fixture date
`start_date + timedelta(days=2)` compared against the window.  Its result
is computed by the loop and then never consulted. -/
def date_check (sd ed : Int) : Bool :=
  decide (sd ≤ sd + 2 ∧ sd + 2 ≤ ed)

/-- Per-row classification in the `get_fixtures` loop: rows with fewer
than six cells are skipped; small-sided rows contribute their description
to the notes; every other row is appended as a fixture carrying the
placeholder date text `"YYYY-MM-DD"`. -/
def processRow (row : Row) : Option (Fixture ⊕ List Char) :=
  if row.length < 6 then none
  else
    let time_str := pyStrip (row.getD 1 [])
    let home_team := pyStrip (row.getD 2 [])
    let away_team := pyStrip (row.getD 3 [])
    let pitch := pyStrip (row.getD 4 [])
    let league := pyStrip (row.getD 5 [])
    let desc := mkDescription home_team away_team league
    if isSmallSided desc then some (Sum.inr desc)
    else some (Sum.inl { date := "YYYY-MM-DD".data, time := time_str,
                         home := home_team, away := away_team, pitch := pitch,
                         league := league })

/-- The rows visited by the `get_fixtures` table loop: every row of every
found table except each table's first (header) row. -/
def scrapedRows (tables : List Table) : List Row :=
  (tables.map fun t => t.drop 1).flatten

/-- The full `get_fixtures` row loop, producing the clean fixtures and the
small-sided notes in traversal order. -/
def loopRows : List Row → List Fixture × List (List Char)
  | [] => ([], [])
  | row :: rest =>
    match processRow row with
    | none => loopRows rest
    | some (Sum.inl f) => (f :: (loopRows rest).1, (loopRows rest).2)
    | some (Sum.inr d) => ((loopRows rest).1, d :: (loopRows rest).2)

/-- The three hard-coded mock fixtures substituted when scraping yields no
clean fixtures, dated relative to the computed `start_date`. -/
def mockFixtures (sd : Int) : List Fixture :=
  [{ date := formatIso (sd + 0), time := "14:00".data,
     home := "Ballers FC".data, away := "Dynamo Kev FC".data,
     pitch := "S1".data, league := "Mens Prem 11s".data },
   { date := formatIso (sd + 0), time := "15:30".data,
     home := "Far Canal".data, away := "Wellington Right Wingers".data,
     pitch := "S1".data, league := "St Pats 11s".data },
   { date := formatIso (sd + 3), time := "19:00".data,
     home := "VUWAFC".data, away := "Wanderers".data,
     pitch := "T1".data, league := "Uni Cup 11s".data }]

/-- The three hard-coded mock notes substituted when no small-sided rows
were collected. -/
def mockNotes : List (List Char) :=
  ["Boyd Wilson Wednesday Night 7's".data,
   "Karori 5's Monday".data,
   "The filter logic is working, but this data is mocked.".data]

/-- `fixture_generator.get_fixtures` over the fixture tables found on the
fetched page (a failed fetch and a page without tables both return a pair
of empty lists before the loop is reached): run the row loop, then
substitute the mock data for either empty component. -/
def get_fixtures (today : Int) (tables : List Table) :
    List Fixture × List (List Char) :=
  if tables = [] then ([], [])
  else
    let sd := (calculate_target_week today).1
    let res := loopRows (scrapedRows tables)
    (if res.1 = [] then mockFixtures sd else res.1,
     if res.2 = [] then mockNotes else res.2)

/-! ## Spec-modelled row validity and time normalization -/

/-- One or two digits, a colon, then exactly two digits: the `H:MM` /
`HH:MM` core shared by both time formats. -/
def readClockCore (s : List Char) : Option (Nat × Nat × List Char) :=
  match read2or1 s with
  | none => none
  | some (h, s1) =>
    match expectChar ':' s1 with
    | none => none
    | some s2 =>
      match s2 with
      | m1 :: m2 :: rest =>
          if m1.isDigit && m2.isDigit then
            some (h, 10 * digitVal m1 + digitVal m2, rest)
          else none
      | _ => none

/-- Modelled from the spec: the time normalization of the third
fixture-collection script, which is not under `src/` ("raw time text may
be in 12-hour form with an AM/PM suffix or already in 24-hour form;
normalize to a zero-padded 24-hour `HH:MM` string.  If the text matches
neither pattern, treat the whole row as unparseable and drop it").
`none` is the neither-pattern case. -/
def normalize_time (s : List Char) : Option (List Char) :=
  match readClockCore s with
  | none => none
  | some (h, m, rest) =>
    if rest = " AM".data ∨ rest = " PM".data then
      if 1 ≤ h && h ≤ 12 && m < 60 then
        some (pad2 (if rest = " PM".data then (if h = 12 then 12 else h + 12)
                    else (if h = 12 then 0 else h)) ++ ':' :: pad2 m)
      else none
    else if rest = [] then
      if h < 24 && m < 60 then some (pad2 h ++ ':' :: pad2 m) else none
    else none

/-- Modelled from the spec: the candidate-fixture validity check of the
third fixture-collection script, which is not under `src/` ("a candidate
fixture is rejected if `home`, `away`, or the raw time text is empty, or
if either team name case-insensitively equals `bye`"), composed with the
time normalization; a surviving row keeps its team texts and receives the
normalized time. -/
def classify_row (home away time_raw : List Char) :
    Option (List Char × List Char × List Char) :=
  if home.isEmpty || away.isEmpty || time_raw.isEmpty then none
  else if pyLower home = "bye".data ∨ pyLower away = "bye".data then none
  else
    match normalize_time time_raw with
    | none => none
    | some t => some (home, away, t)

/-! ## The orchestrating `main_scraper` -/

/-- The configured 11-a-side league URLs (`LEAGUES_11S`). -/
def LEAGUES_11S : List (List Char) :=
  ["https://www.betterfootball.co.nz/fixtures-and-standings/mens-premier-11s/".data,
   "https://www.betterfootball.co.nz/fixtures-and-standings/mens-division-1-11s/".data]

/-- The configured small-sided league URLs (`LEAGUES_7S_5S`). -/
def LEAGUES_7S_5S : List (List Char) :=
  ["https://www.betterfootball.co.nz/fixtures-and-standings/mixed-7s-tuesday/".data,
   "https://www.betterfootball.co.nz/fixtures-and-standings/mens-5s-wednesday/".data]

/-- Collect a list of `Option` results, failing if any entry failed. -/
def seqOpt : List (Option (List Fixture)) → Option (List (List Fixture))
  | [] => some []
  | none :: _ => none
  | some x :: rest => (seqOpt rest).map fun l => x :: l

/-- `fixture_scraper.main_scraper`, with the page fetch abstracted as a
function from a URL to the rows of that page's fixture table (`none`
covers both a failed request and a missing table, either of which
contributes no fixtures).  The result is `none` when an uncaught
exception in `create_night_availability` would crash the run. -/
def main_scraper (fetch : List Char → Option (List Row)) (today : Int) :
    Option (List Fixture) :=
  let sd := (get_target_date_range today).1
  let ed := (get_target_date_range today).2
  let elevens := (LEAGUES_11S.map fun u =>
    match fetch u with
    | none => []
    | some rows => scrape_11s_league u rows sd ed).flatten
  match seqOpt (LEAGUES_7S_5S.map fun u => create_night_availability u sd ed) with
  | none => none
  | some nights => some (elevens ++ nights.flatten)

/-- The serialized output of a run: the literal `"[]"` when no fixtures
were found, otherwise the fixture list rendered by the JSON writer — an
external collaborator abstracted as the `dumps` argument. -/
def output_json (dumps : List Fixture → List Char)
    (fetch : List Char → Option (List Row)) (today : Int) :
    Option (List Char) :=
  match main_scraper fetch today with
  | none => none
  | some fs => if fs = [] then some "[]".data else some (dumps fs)

/-! ## Row descriptions and concrete sample data -/

/-- The combined description computed by the `get_fixtures` loop for a
row: home, away and league are the stripped cells 2, 3 and 5. -/
def descOfRow (row : Row) : List Char :=
  mkDescription (pyStrip (row.getD 2 [])) (pyStrip (row.getD 3 []))
    (pyStrip (row.getD 5 []))

/-- A sample 11s fixture-table row dated inside the sample window. -/
def sampleScrapeRow : Row :=
  ["11/10/2025".data, "14:00".data, "Ballers FC".data, "Dynamo Kev FC".data,
   "S1".data]

/-- A sample 11s league URL, from the configuration. -/
def sampleUrl : List Char :=
  "https://www.betterfootball.co.nz/fixtures-and-standings/mens-premier-11s/".data

/-- A sample generator page: one table holding a header row, one ordinary
fixture row and one small-sided row. -/
def sampleTables : List Table :=
  [[["Header".data],
    ["Sat".data, "18:00".data, "Hound FC".data, "Aro Valley".data,
     "P1".data, "Mens 11s".data],
    ["Sat".data, "19:00".data, "Karori A".data, "Karori B".data,
     "P2".data, "Mixed 7's".data]]]

/-! ## Claim C3: `calculate_target_week` -/

/-- C3: for every "today", `calculate_target_week` returns a `start_date`
that is the most recent Saturday on or before today (today itself on a
Saturday), an `end_date` five days later (a Thursday), and hence
`start_date ≤ end_date` with `start_date` falling on a Saturday. -/
theorem calculate_target_week_spec (today : Int) :
    weekday (calculate_target_week today).1 = 5 ∧
    (calculate_target_week today).1 ≤ today ∧
    today - (calculate_target_week today).1 ≤ 6 ∧
    (weekday today = 5 → (calculate_target_week today).1 = today) ∧
    (calculate_target_week today).2 = (calculate_target_week today).1 + 5 ∧
    (calculate_target_week today).1 ≤ (calculate_target_week today).2 ∧
    weekday (calculate_target_week today).2 = 3 := by
  unfold calculate_target_week weekday
  omega

/-! ## Claim C2: `get_target_date_range` -/

/-- C2 counterexample: at the concrete "today" ordinal 739536 (Sunday
2025-10-12) the end date returned by `get_target_date_range` falls on a
Friday (weekday 4), not on a Thursday (weekday 3) as claimed. -/
theorem get_target_date_range_end_not_thursday :
    weekday (get_target_date_range 739536).2 = 4 ∧
    ¬ weekday (get_target_date_range 739536).2 = 3 := by
  constructor
  · rfl
  · decide

/-- C2 amended: for every "today", `get_target_date_range` returns a
`start_date` that is the upcoming Saturday (today itself on a Saturday)
and an `end_date` exactly 6 days after `start_date`; that end date falls
on a Friday (weekday 4), so the window is Saturday-to-Friday rather than
the Saturday-to-Thursday window announced by the function's docstring. -/
theorem get_target_date_range_spec (today : Int) :
    weekday (get_target_date_range today).1 = 5 ∧
    today ≤ (get_target_date_range today).1 ∧
    (get_target_date_range today).1 - today ≤ 6 ∧
    (weekday today = 5 → (get_target_date_range today).1 = today) ∧
    (get_target_date_range today).2 = (get_target_date_range today).1 + 6 ∧
    weekday (get_target_date_range today).2 = 4 := by
  unfold get_target_date_range weekday
  omega

/-- Witness for `calculate_target_week_spec`: on Saturday 2025-10-11
(ordinal 739535) the start of the window is today itself. -/
theorem calculate_target_week_spec_witness :
    weekday 739535 = 5 ∧ (calculate_target_week 739535).1 = 739535 :=
  ⟨by decide, (calculate_target_week_spec 739535).2.2.2.1 (by decide)⟩

/-- Witness for `get_target_date_range_spec`: on Saturday 2025-10-11
(ordinal 739535) the start of the window is today itself. -/
theorem get_target_date_range_spec_witness :
    weekday 739535 = 5 ∧ (get_target_date_range 739535).1 = 739535 :=
  ⟨by decide, (get_target_date_range_spec 739535).2.2.2.1 (by decide)⟩


/-! ## Claim C7: `is_date_in_range` -/

/-- C7: for every date text and window bounds `start ≤ end`,
`is_date_in_range` returns `true` exactly when the text parses in
`DD/MM/YYYY` format or, failing that, in `YYYY-MM-DD` format, and the
parsed date lies within the window inclusively; text matching neither
format gives `false` (the row is silently dropped, no exception
escapes). -/
theorem is_date_in_range_iff (s : List Char) (a b : Int) (hab : a ≤ b) :
    is_date_in_range s a b = true ↔
      ∃ n, (parseDMY s = some n ∨ (parseDMY s = none ∧ parseYMD s = some n)) ∧
        a ≤ n ∧ n ≤ b := by
  unfold is_date_in_range
  cases hd : parseDMY s with
  | none =>
    cases hy : parseYMD s with
    | none => simp
    | some m => simp
  | some n => simp

/-- Witness for `is_date_in_range_iff` at the concrete text
`"11/10/2025"` and the window of Saturday 2025-10-11. -/
theorem is_date_in_range_iff_witness :
    (739535 : Int) ≤ 739541 ∧
      (is_date_in_range "11/10/2025".data 739535 739541 = true ↔
        ∃ n, (parseDMY "11/10/2025".data = some n ∨
              (parseDMY "11/10/2025".data = none ∧
               parseYMD "11/10/2025".data = some n)) ∧
          739535 ≤ n ∧ n ≤ 739541) :=
  ⟨by decide, is_date_in_range_iff ("11/10/2025".data) 739535 739541 (by decide)⟩

/-! ## Claim C1: dates of emitted fixtures -/

/-- Every fixture produced by the `scrape_11s_league` row loop stores a
date text that passed `is_date_in_range` for the given window. -/
theorem scrapeRows_mem_date (league : List Char) (a b : Int) :
    ∀ (rows : List Row) (fs : List Fixture) (f : Fixture),
      scrapeRows league a b rows = some fs → f ∈ fs →
      is_date_in_range f.date a b = true := by
  intro rows
  induction rows with
  | nil =>
    intro fs f h hf
    simp only [scrapeRows, Option.some.injEq] at h
    subst h
    simp at hf
  | cons row rest ih =>
    intro fs f h hf
    simp only [scrapeRows] at h
    split at h
    · exact ih fs f h hf
    · split at h
      · exact ih fs f h hf
      · split at h
        · split at h
          · cases hrest : scrapeRows league a b rest with
            | none => rw [hrest] at h; simp at h
            | some fs2 =>
              rw [hrest] at h
              simp only [Option.map_some', Option.some.injEq] at h
              subst h
              rcases List.mem_cons.mp hf with rfl | hf2
              · simpa using (by assumption : is_date_in_range _ a b = true)
              · exact ih fs2 f hrest hf2
          · exact absurd h (by simp)
        · exact ih fs f h hf

/-- A fixture appended by the `get_fixtures` loop always carries the
placeholder date text, and its description is not small-sided. -/
theorem processRow_inl {row : Row} {f : Fixture} :
    processRow row = some (Sum.inl f) →
    f.date = "YYYY-MM-DD".data ∧
    isSmallSided (mkDescription f.home f.away f.league) = false := by
  intro h
  simp only [processRow] at h
  split at h
  · exact absurd h (by simp)
  · split at h
    · exact absurd h (by simp)
    · rename_i hsmall
      simp only [Option.some.injEq, Sum.inl.injEq] at h
      subst h
      exact ⟨rfl, by simpa using hsmall⟩

/-- A note appended by the `get_fixtures` loop is the row's description
and is small-sided. -/
theorem processRow_inr {row : Row} {d : List Char} :
    processRow row = some (Sum.inr d) →
    d = descOfRow row ∧ isSmallSided d = true := by
  intro h
  simp only [processRow] at h
  split at h
  · exact absurd h (by simp)
  · split at h
    · rename_i hsmall
      simp only [Option.some.injEq, Sum.inr.injEq] at h
      subst h
      exact ⟨by simp [descOfRow], hsmall⟩
    · exact absurd h (by simp)

/-- A row with at least six cells and a small-sided description is turned
into exactly its description note. -/
theorem processRow_of_smallSided {row : Row} (h6 : ¬ row.length < 6)
    (hs : isSmallSided (descOfRow row) = true) :
    processRow row = some (Sum.inr (descOfRow row)) := by
  simp only [processRow, if_neg h6, descOfRow, mkDescription] at hs ⊢
  rw [if_pos hs]

/-- Membership in the clean-fixture component of the `get_fixtures`
loop. -/
theorem mem_loopRows_fst {rows : List Row} {f : Fixture} :
    f ∈ (loopRows rows).1 ↔ ∃ row ∈ rows, processRow row = some (Sum.inl f) := by
  induction rows with
  | nil => simp [loopRows]
  | cons row rest ih =>
    simp only [loopRows]
    cases hp : processRow row with
    | none => simp [hp, ih]
    | some v =>
      cases v with
      | inl g =>
        simp only [hp, List.mem_cons, List.mem_cons, ih]
        constructor
        · rintro (rfl | ⟨r, hr, hpr⟩)
          · exact ⟨row, Or.inl rfl, hp⟩
          · exact ⟨r, Or.inr hr, hpr⟩
        · rintro ⟨r, (rfl | hr), hpr⟩
          · have h2 := hp.symm.trans hpr
            simp only [Option.some.injEq, Sum.inl.injEq] at h2
            exact Or.inl h2.symm
          · exact Or.inr ⟨r, hr, hpr⟩
      | inr d => simp [hp, ih]

/-- Membership in the notes component of the `get_fixtures` loop. -/
theorem mem_loopRows_snd {rows : List Row} {d : List Char} :
    d ∈ (loopRows rows).2 ↔ ∃ row ∈ rows, processRow row = some (Sum.inr d) := by
  induction rows with
  | nil => simp [loopRows]
  | cons row rest ih =>
    simp only [loopRows]
    cases hp : processRow row with
    | none => simp [hp, ih]
    | some v =>
      cases v with
      | inl g => simp [hp, ih]
      | inr d2 =>
        simp only [hp, List.mem_cons, List.mem_cons, ih]
        constructor
        · rintro (rfl | ⟨r, hr, hpr⟩)
          · exact ⟨row, Or.inl rfl, hp⟩
          · exact ⟨r, Or.inr hr, hpr⟩
        · rintro ⟨r, (rfl | hr), hpr⟩
          · have h2 := hp.symm.trans hpr
            simp only [Option.some.injEq, Sum.inr.injEq] at h2
            exact Or.inl h2.symm
          · exact Or.inr ⟨r, hr, hpr⟩

/-- C1 counterexample: on the sample page, `get_fixtures` at today
739537 (Monday 2025-10-13, window Saturday 2025-10-11 to Thursday
2025-10-16) emits a fixture whose date text is the placeholder
`"YYYY-MM-DD"`, which does not lie in the computed window (it parses as
no date at all), refuting the claim that every emitted fixture's date
lies within `[start_date, end_date]`. -/
theorem get_fixtures_placeholder_counterexample :
    (get_fixtures 739537 sampleTables).1 =
      [{ date := "YYYY-MM-DD".data, time := "18:00".data,
         home := "Hound FC".data, away := "Aro Valley".data,
         pitch := "P1".data, league := "Mens 11s".data }] ∧
    (calculate_target_week 739537).1 = 739535 ∧
    (calculate_target_week 739537).2 = 739540 ∧
    is_date_in_range "YYYY-MM-DD".data 739535 739540 = false := by
  exact ⟨by decide, by decide, by decide, by decide⟩

/-- C1 amended: in `scrape_11s_league` a row is appended only when
`is_date_in_range` holds for its date text, so every fixture it emits has
a date within the window; in `get_fixtures`, however, the simulated date
check is never consulted — it is identically true over the computed
window — and every appended fixture carries the placeholder date text
`"YYYY-MM-DD"` rather than a date in the window. -/
theorem emitted_dates_in_window :
    (∀ (url : List Char) (rows : List Row) (a b : Int),
      ∀ f ∈ scrape_11s_league url rows a b,
        is_date_in_range f.date a b = true) ∧
    (∀ rows : List Row, ∀ f ∈ (loopRows rows).1,
      f.date = "YYYY-MM-DD".data) ∧
    (∀ sd : Int, date_check sd (sd + 5) = true) := by
  refine ⟨?_, ?_, ?_⟩
  · intro url rows a b f hf
    unfold scrape_11s_league at hf
    split at hf
    · simp at hf
    · rename_i league hleague
      cases hsr : scrapeRows league a b rows with
      | none => rw [hsr] at hf; simp at hf
      | some fs =>
        rw [hsr] at hf
        simp only [Option.getD_some] at hf
        exact scrapeRows_mem_date league a b rows fs f hsr hf
  · intro rows f hf
    rcases mem_loopRows_fst.mp hf with ⟨row, _, hp⟩
    exact (processRow_inl hp).1
  · intro sd
    unfold date_check
    rw [decide_eq_true_iff]
    omega

/-- Witness for `emitted_dates_in_window`: a concrete scrape of one row
dated 2025-10-11 inside the window of Saturday 2025-10-11. -/
theorem emitted_dates_in_window_witness :
    is_date_in_range "11/10/2025".data 739535 739541 = true :=
  emitted_dates_in_window.1 sampleUrl [sampleScrapeRow] 739535 739541
    { date := "11/10/2025".data, time := "14:00".data,
      home := "Ballers FC".data, away := "Dynamo Kev FC".data,
      pitch := "S1".data, league := "Mens Premier 11S".data } (by decide)

/-! ## Claims C4 and C9: small-sided filtering and mock fallbacks -/

/-- A combined description always ends with a closing parenthesis. -/
theorem mkDescription_getLast (a b c : List Char) :
    (mkDescription a b c).getLast? = some ')' := by
  unfold mkDescription
  rw [show (")".data) = [')'] from rfl, show [')'] = List.concat [] ')' from rfl,
    ← List.concat_append]
  exact List.getLast?_concat _

/-- With at least one table present, `get_fixtures` is the row-loop result
with the mock substitutions applied componentwise. -/
theorem get_fixtures_eq (today : Int) (tables : List Table)
    (h : ¬ tables = []) :
    get_fixtures today tables =
      (if (loopRows (scrapedRows tables)).1 = []
         then mockFixtures (calculate_target_week today).1
         else (loopRows (scrapedRows tables)).1,
       if (loopRows (scrapedRows tables)).2 = [] then mockNotes
         else (loopRows (scrapedRows tables)).2) := by
  simp only [get_fixtures, if_neg h]

/-- C4: in `get_fixtures`, a scraped row whose combined description
contains `5's` or `7's` is excluded from the returned clean fixtures
(no returned fixture has a small-sided description) and its description
is appended to the returned notes; a row whose description contains
neither substring never reaches the notes list. -/
theorem small_sided_rows_notes (today : Int) (tables : List Table) :
    (∀ f ∈ (get_fixtures today tables).1,
      isSmallSided (mkDescription f.home f.away f.league) = false) ∧
    (∀ row ∈ scrapedRows tables, ¬ row.length < 6 →
      isSmallSided (descOfRow row) = true →
        descOfRow row ∈ (get_fixtures today tables).2) ∧
    (∀ row ∈ scrapedRows tables, isSmallSided (descOfRow row) = false →
      descOfRow row ∉ (get_fixtures today tables).2) := by
  by_cases ht : tables = []
  · subst ht
    refine ⟨?_, ?_, ?_⟩ <;> intro x hx <;> simp [get_fixtures, scrapedRows] at hx
  · rw [get_fixtures_eq today tables ht]
    refine ⟨?_, ?_, ?_⟩
    · intro f hf
      by_cases hc : (loopRows (scrapedRows tables)).1 = []
      · rw [if_pos hc] at hf
        simp only [mockFixtures, List.mem_cons, List.mem_singleton] at hf
        rcases hf with rfl | rfl | rfl | hf
        · show isSmallSided (mkDescription ("Ballers FC".data)
            ("Dynamo Kev FC".data) ("Mens Prem 11s".data)) = false
          decide
        · show isSmallSided (mkDescription ("Far Canal".data)
            ("Wellington Right Wingers".data) ("St Pats 11s".data)) = false
          decide
        · show isSmallSided (mkDescription ("VUWAFC".data)
            ("Wanderers".data) ("Uni Cup 11s".data)) = false
          decide
        · simp at hf
      · rw [if_neg hc] at hf
        rcases mem_loopRows_fst.mp hf with ⟨row, _, hp⟩
        exact (processRow_inl hp).2
    · intro row hrow h6 hs
      have hp := processRow_of_smallSided h6 hs
      have hmem : descOfRow row ∈ (loopRows (scrapedRows tables)).2 :=
        mem_loopRows_snd.mpr ⟨row, hrow, hp⟩
      have hne : ¬ (loopRows (scrapedRows tables)).2 = [] := by
        intro he; rw [he] at hmem; simp at hmem
      rw [if_neg hne]
      exact hmem
    · intro row _ hs hmem
      by_cases hc : (loopRows (scrapedRows tables)).2 = []
      · rw [if_pos hc] at hmem
        simp only [mockNotes, List.mem_cons, List.mem_singleton] at hmem
        rcases hmem with he | he | he | hmem
        · rw [he] at hs; exact absurd hs (by decide)
        · rw [he] at hs; exact absurd hs (by decide)
        · have h1 : (descOfRow row).getLast? = some ')' := by
            unfold descOfRow
            exact mkDescription_getLast _ _ _
          rw [he] at h1
          exact absurd h1 (by decide)
        · simp at hmem
      · rw [if_neg hc] at hmem
        rcases mem_loopRows_snd.mp hmem with ⟨row2, _, hp⟩
        have := (processRow_inr hp).2
        rw [hs] at this
        exact absurd this (by decide)

/-- Witness for `small_sided_rows_notes`: the sample page's `7's` row ends
up in the returned notes list. -/
theorem small_sided_rows_notes_witness :
    ("Karori A vs Karori B (Mixed 7's)".data : List Char) ∈
      (get_fixtures 739537 sampleTables).2 := by
  have h := (small_sided_rows_notes 739537 sampleTables).2.1
    ["Sat".data, "19:00".data, "Karori A".data, "Karori B".data,
     "P2".data, "Mixed 7's".data] (by decide) (by decide) (by decide)
  have h2 : descOfRow ["Sat".data, "19:00".data, "Karori A".data,
      "Karori B".data, "P2".data, "Mixed 7's".data] =
      "Karori A vs Karori B (Mixed 7's)".data := by decide
  rw [h2] at h
  exact h

/-- C9: with at least one fixture table found, the fixtures list returned
by `get_fixtures` is never empty — an empty scrape is replaced by the
three mock fixtures dated relative to the computed `start_date` — and an
empty notes collection is replaced by the hard-coded three-entry notes
list. -/
theorem get_fixtures_mock_fallback (today : Int) (tables : List Table)
    (h : ¬ tables = []) :
    (get_fixtures today tables).1 ≠ [] ∧
    ((loopRows (scrapedRows tables)).1 = [] →
      (get_fixtures today tables).1 =
        mockFixtures (calculate_target_week today).1) ∧
    ((mockFixtures (calculate_target_week today).1).map Fixture.date =
      [formatIso ((calculate_target_week today).1 + 0),
       formatIso ((calculate_target_week today).1 + 0),
       formatIso ((calculate_target_week today).1 + 3)]) ∧
    ((loopRows (scrapedRows tables)).2 = [] →
      (get_fixtures today tables).2 = mockNotes) ∧
    mockNotes.length = 3 := by
  rw [get_fixtures_eq today tables h]
  refine ⟨?_, ?_, rfl, ?_, rfl⟩
  · by_cases hc : (loopRows (scrapedRows tables)).1 = []
    · rw [if_pos hc]; simp [mockFixtures]
    · rw [if_neg hc]; exact hc
  · intro hc; rw [if_pos hc]
  · intro hc; rw [if_pos hc]

/-- Witness for `get_fixtures_mock_fallback`: a page with one empty table
yields exactly the mock fixtures. -/
theorem get_fixtures_mock_fallback_witness :
    (get_fixtures 739537 [[]]).1 =
      mockFixtures (calculate_target_week 739537).1 :=
  (get_fixtures_mock_fallback 739537 [[]] (by decide)).2.1 (by decide)

/-! ## Claims C5 and C6: spec-modelled validity and normalization -/

/-- C5 (spec-modelled): `"2:30 PM"` normalizes to the zero-padded 24-hour
string `"14:30"`, the already-24-hour `"19:00"` is emitted unchanged,
`"garbage"` matches neither pattern, and a row whose time text fails to
normalize is dropped by the row classifier. -/
theorem normalize_time_spec :
    normalize_time "2:30 PM".data = some ("14:30".data) ∧
    normalize_time "19:00".data = some ("19:00".data) ∧
    normalize_time "garbage".data = none ∧
    (∀ home away t, normalize_time t = none →
      classify_row home away t = none) := by
  refine ⟨by decide, by decide, by decide, ?_⟩
  intro home away t hn
  unfold classify_row
  split
  · rfl
  · split
    · rfl
    · simp only [hn]

/-- Witness for `normalize_time_spec`: a concrete row with time text
`"garbage"` is dropped. -/
theorem normalize_time_spec_witness :
    classify_row "Ballers FC".data "Dynamo Kev FC".data "garbage".data = none :=
  normalize_time_spec.2.2.2 ("Ballers FC".data) ("Dynamo Kev FC".data)
    ("garbage".data) (by decide)

/-- C6 (spec-modelled): a candidate fixture row is rejected whenever its
home, away or raw time text is empty, or either team name
case-insensitively equals `"bye"`. -/
theorem classify_row_rejects (home away t : List Char)
    (h : home = [] ∨ away = [] ∨ t = [] ∨
      pyLower home = "bye".data ∨ pyLower away = "bye".data) :
    classify_row home away t = none := by
  unfold classify_row
  split
  · rfl
  · rename_i h1
    split
    · rfl
    · rename_i h2
      exfalso
      rcases h with h | h | h | h | h
      · exact h1 (by simp [h])
      · exact h1 (by simp [h])
      · exact h1 (by simp [h])
      · exact h2 (Or.inl h)
      · exact h2 (Or.inr h)

/-- Witness for `classify_row_rejects`: a row whose home team is `"Bye"`
is rejected. -/
theorem classify_row_rejects_witness :
    classify_row "Bye".data "Ballers FC".data "19:00".data = none :=
  classify_row_rejects ("Bye".data) ("Ballers FC".data) ("19:00".data)
    (Or.inr (Or.inr (Or.inr (Or.inl (by decide)))))

/-! ## Claim C8: `create_night_availability` -/

/-- The values of the weekday table are exactly Monday (0) through
Thursday (3). -/
theorem dayMap_values {s : List Char} {w : Int} (h : dayMap s = some w) :
    w = 0 ∨ w = 1 ∨ w = 2 ∨ w = 3 := by
  unfold dayMap at h
  split at h
  · cases h; right; left; rfl
  · split at h
    · cases h; right; right; left; rfl
    · split at h
      · cases h; right; right; right; rfl
      · split at h
        · cases h; left; rfl
        · cases h

/-- The availability loop stops at the first window date on the target
weekday and returns exactly one placeholder for it. -/
theorem nightLoop_finds (league : List Char) (w : Int) :
    ∀ (k : Nat) (cur ed : Int), cur + k ≤ ed →
      (∀ j : Nat, j < k → weekday (cur + j) ≠ w) → weekday (cur + k) = w →
      nightLoop league w cur ed =
        [{ date := formatIso (cur + k), time := "Night".data, home := league,
           away := "OPEN NIGHT AVAILABILITY".data, pitch := "Multiple".data,
           league := "Night Referees".data }] := by
  intro k
  induction k with
  | zero =>
    intro cur ed hle hfirst hw
    simp only [Nat.cast_zero, add_zero] at hle hw ⊢
    rw [nightLoop, dif_pos hle, if_pos hw]
  | succ k ih =>
    intro cur ed hle hfirst hw
    have h1 : cur ≤ ed := by push_cast at hle; omega
    have h0 : weekday cur ≠ w := by
      have h2 := hfirst 0 (Nat.succ_pos k)
      simpa using h2
    rw [nightLoop, dif_pos h1, if_neg h0]
    have e1 : cur + ((k : Int) + 1) = cur + 1 + k := by ring
    have h3 : cur + 1 + (k : Int) ≤ ed := by push_cast at hle; omega
    have h4 : ∀ j : Nat, j < k → weekday (cur + 1 + j) ≠ w := by
      intro j hj
      have h5 := hfirst (j + 1) (by omega)
      push_cast at h5
      rw [show cur + ((j : Int) + 1) = cur + 1 + j from by ring] at h5
      exact h5
    have h6 : weekday (cur + 1 + k) = w := by
      push_cast at hw
      rw [← e1]
      exact hw
    rw [ih (cur + 1) ed h3 h4 h6]
    push_cast
    rw [e1]

/-- C8: for a URL whose derived league name ends in a recognized weekday
name (Monday through Thursday) and a window starting on a Saturday with
`end_date = start_date + 6`, `create_night_availability` returns exactly
one synthetic fixture, dated (in ISO form) at the unique window date
falling on that weekday, with the literal time `"Night"`; a URL with an
unrecognized day name yields the empty list. -/
theorem create_night_availability_spec (url : List Char) (sd ed : Int)
    (name : List Char) (hname : leagueNameOfUrl url = some name)
    (hsat : weekday sd = 5) (hed : ed = sd + 6) :
    (∀ w, dayMap (pyLower (lastWord name)) = some w →
      ∃ d, sd ≤ d ∧ d ≤ ed ∧ weekday d = w ∧
        (∀ e, sd ≤ e → e ≤ ed → weekday e = w → e = d) ∧
        create_night_availability url sd ed =
          some [{ date := formatIso d, time := "Night".data, home := name,
                  away := "OPEN NIGHT AVAILABILITY".data,
                  pitch := "Multiple".data,
                  league := "Night Referees".data }]) ∧
    (dayMap (pyLower (lastWord name)) = none →
      create_night_availability url sd ed = some []) := by
  subst hed
  constructor
  · intro w hw
    rcases dayMap_values hw with rfl | rfl | rfl | rfl
    · refine ⟨sd + 2, by omega, by omega,
        by unfold weekday at hsat ⊢; omega,
        fun e he1 he2 he3 => by unfold weekday at hsat he3; omega, ?_⟩
      simp only [create_night_availability, hname, hw]
      rw [nightLoop_finds name 0 2 sd (sd + 6) (by push_cast; omega)
        (by intro j hj; unfold weekday at hsat ⊢; push_cast; omega)
        (by unfold weekday at hsat ⊢; push_cast; omega)]
      norm_num
    · refine ⟨sd + 3, by omega, by omega,
        by unfold weekday at hsat ⊢; omega,
        fun e he1 he2 he3 => by unfold weekday at hsat he3; omega, ?_⟩
      simp only [create_night_availability, hname, hw]
      rw [nightLoop_finds name 1 3 sd (sd + 6) (by push_cast; omega)
        (by intro j hj; unfold weekday at hsat ⊢; push_cast; omega)
        (by unfold weekday at hsat ⊢; push_cast; omega)]
      norm_num
    · refine ⟨sd + 4, by omega, by omega,
        by unfold weekday at hsat ⊢; omega,
        fun e he1 he2 he3 => by unfold weekday at hsat he3; omega, ?_⟩
      simp only [create_night_availability, hname, hw]
      rw [nightLoop_finds name 2 4 sd (sd + 6) (by push_cast; omega)
        (by intro j hj; unfold weekday at hsat ⊢; push_cast; omega)
        (by unfold weekday at hsat ⊢; push_cast; omega)]
      norm_num
    · refine ⟨sd + 5, by omega, by omega,
        by unfold weekday at hsat ⊢; omega,
        fun e he1 he2 he3 => by unfold weekday at hsat he3; omega, ?_⟩
      simp only [create_night_availability, hname, hw]
      rw [nightLoop_finds name 3 5 sd (sd + 6) (by push_cast; omega)
        (by intro j hj; unfold weekday at hsat ⊢; push_cast; omega)
        (by unfold weekday at hsat ⊢; push_cast; omega)]
      norm_num
  · intro hw
    simp only [create_night_availability, hname, hw]

/-- Witness for `create_night_availability_spec`: the configured Tuesday
7s URL over the window of Saturday 2025-10-11 yields the single
placeholder dated Tuesday 2025-10-14. -/
theorem create_night_availability_spec_witness :
    create_night_availability
      ("https://www.betterfootball.co.nz/fixtures-and-standings/mixed-7s-tuesday/".data)
      739535 739541 =
      some [{ date := "2025-10-14".data, time := "Night".data,
              home := "Mixed 7S Tuesday".data,
              away := "OPEN NIGHT AVAILABILITY".data,
              pitch := "Multiple".data,
              league := "Night Referees".data }] := by
  obtain ⟨d, h1, h2, h3, h4, h5⟩ :=
    (create_night_availability_spec
      ("https://www.betterfootball.co.nz/fixtures-and-standings/mixed-7s-tuesday/".data)
      739535 739541 ("Mixed 7S Tuesday".data)
      (by decide) (by decide) (by decide)).1 1 (by decide)
  have hd : (739538 : Int) = d := h4 739538 (by decide) (by decide) (by decide)
  rw [h5, ← hd]
  decide

/-! ## Claim C10: determinism of a run -/

/-- C10: two runs of `main_scraper` with identical fetched pages for every
URL and the same "today" produce identical serialized JSON output: the
pipeline is a deterministic function of the pages and the date. -/
theorem output_json_deterministic (dumps : List Fixture → List Char)
    (fetch1 fetch2 : List Char → Option (List Row)) (t1 t2 : Int)
    (hf : ∀ u, fetch1 u = fetch2 u) (ht : t1 = t2) :
    output_json dumps fetch1 t1 = output_json dumps fetch2 t2 := by
  have he : fetch1 = fetch2 := funext hf
  rw [he, ht]

/-- Witness for `output_json_deterministic`: two identical all-failing
fetch runs at the same date agree. -/
theorem output_json_deterministic_witness :
    output_json (fun _ => []) (fun _ => none) 739537 =
      output_json (fun _ => []) (fun _ => none) 739537 :=
  output_json_deterministic (fun _ => []) (fun _ => none) (fun _ => none)
    739537 739537 (fun _ => rfl) rfl
